import Mathlib

/-!
Verification development for the passbolt Terraform provider
(`internal/provider`): a shallow embedding of the provider bootstrap
(`provider.go`) and of the folder and password resource adapters, together
with theorems about their create / read / update behaviour.

The remote Passbolt API is modelled as a structure of `Except`-returning
functions (`Client`); every adapter operation returns both its outcome and
the ordered list of remote calls it performed, so that "no remote call is
made" and "delete is followed by create" are directly statable.
-/

namespace Passbolt

/-- Terraform framework `types.String`: a string attribute is null, unknown,
or holds a concrete value. -/
inductive TFString
  | null
  | unknown
  | value (s : String)
deriving DecidableEq, Repr

/-- `types.String.ValueString()`: the held string, or `""` when null/unknown. -/
def TFString.valueString : TFString → String
  | .value s => s
  | _ => ""

/-- `types.String.IsNull()`. -/
def TFString.isNull : TFString → Bool
  | .null => true
  | _ => false

/-- `types.String.IsUnknown()`. -/
def TFString.isUnknown : TFString → Bool
  | .unknown => true
  | _ => false

/-- Terraform framework `types.Bool`. -/
inductive TFBool
  | null
  | unknown
  | value (b : Bool)
deriving DecidableEq, Repr

/-- `api.Folder` (the fields used by the provider). -/
structure Folder where
  id : String
  name : String
  folderParentID : String
  personal : Bool
deriving DecidableEq, Repr

/-- `api.Resource` (the fields used by the provider). -/
structure PBResource where
  id : String
  name : String
  description : String
  username : String
  uri : String
  folderParentID : String
deriving DecidableEq, Repr

/-- `api.Group` (the fields used by the provider). -/
structure Group where
  id : String
  name : String
deriving DecidableEq, Repr

/-- `helper.ShareOperation`: permission type, principal kind, principal id. -/
structure ShareOperation where
  typ : Int
  aro : String
  aroID : String
deriving DecidableEq, Repr

/-- A Go `error` value returned by a remote call. `resourceNotFound` records
whether the error is classified as a "resource not found" error. -/
structure GoError where
  message : String
  resourceNotFound : Bool
deriving DecidableEq, Repr

/-- Modelled from the spec: the helper `isResourceNotFoundError` called by
`PasswordResource.Read` is defined in a repository file not present under
`src/`; per the spec it distinguishes a remote "not found" signal from
genuine transport failures, so it is modelled as reading the error's
not-found classification. -/
def isResourceNotFoundError (e : GoError) : Bool :=
  e.resourceNotFound

/-- One remote API call made by a resource adapter. `patchResource` is the
field-level partial update the remote API may offer; the provider never
emits it. -/
inductive Call
  | getFolders
  | getFolder (id : String)
  | createFolder (f : Folder)
  | deleteFolder (id : String)
  | getResource (id : String)
  | createResource (folderID name username uri password description : String)
  | deleteResource (id : String)
  | patchResource (id : String)
  | getGroups
  | shareResource (id : String) (shares : List ShareOperation)
deriving DecidableEq, Repr

def Call.isCreateFolder : Call → Bool
  | .createFolder _ => true
  | _ => false

def Call.isDeleteFolder : Call → Bool
  | .deleteFolder _ => true
  | _ => false

def Call.isCreateResource : Call → Bool
  | .createResource _ _ _ _ _ _ => true
  | _ => false

def Call.isDeleteResource : Call → Bool
  | .deleteResource _ => true
  | _ => false

def Call.isPatchResource : Call → Bool
  | .patchResource _ => true
  | _ => false

def Call.isShareResource : Call → Bool
  | .shareResource _ _ => true
  | _ => false

/-- The authenticated `*api.Client` handle, modelled as the responses the
remote returns to each kind of call. -/
structure Client where
  getFolders : Except GoError (List Folder)
  getFolder : String → Except GoError Folder
  createFolder : Folder → Except GoError Folder
  deleteFolder : String → Except GoError Unit
  getResource : String → Except GoError PBResource
  createResource : String → String → String → String → String → String → Except GoError String
  deleteResource : String → Except GoError Unit
  getGroups : Except GoError (List Group)
  shareResource : String → List ShareOperation → Except GoError Unit

/-- One diagnostic: `AddError` produces `path = none`, `AddAttributeError`
records the attribute path. -/
structure Diag where
  path : Option String
  summary : String
  detail : String
deriving DecidableEq, Repr

/-- Outcome of Create/Update: new tracked state, or diagnostics error
(state untouched). -/
inductive OpResult (σ : Type)
  | ok (state : σ)
  | err (d : Diag)
deriving DecidableEq, Repr

/-- Outcome of Read: refreshed state, state removed
(`resp.State.RemoveResource`), or diagnostics error (state untouched). -/
inductive ReadResult (σ : Type)
  | ok (state : σ)
  | removed
  | err (d : Diag)
deriving DecidableEq, Repr

/-- `FolderResourceModel`. -/
structure FolderResourceModel where
  id : TFString
  name : TFString
  personal : TFBool
  folderParent : TFString
deriving DecidableEq, Repr

/-- `PasswordResourceModel`. -/
structure PasswordResourceModel where
  id : TFString
  name : TFString
  description : TFString
  username : TFString
  uri : TFString
  password : TFString
  folderParent : TFString
  shareGroup : TFString
deriving DecidableEq, Repr

/-- The `for _, folder := range folders { if folder.Name == name { id =
folder.ID; break } }` scan, with `id` starting as `""`. -/
def resolveFolderID (folders : List Folder) (name : String) : String :=
  match folders with
  | [] => ""
  | folder :: rest =>
    if folder.name == name then folder.id else resolveFolderID rest name

/-- The same scan over groups (`group.Name == name` sets `groupID`). -/
def resolveGroupID (groups : List Group) (name : String) : String :=
  match groups with
  | [] => ""
  | group :: rest =>
    if group.name == name then group.id else resolveGroupID rest name

/-- The scan in `PasswordResource.Read` looking up a folder name by id
(`folder.ID == resource.FolderParentID`). -/
def findFolderNameByID (folders : List Folder) (fid : String) : Option String :=
  match folders with
  | [] => none
  | folder :: rest =>
    if folder.id == fid then some folder.name else findFolderNameByID rest fid

/-- Character-list prefix test (structural, so it evaluates by `decide`). -/
def charsPrefix : List Char → List Char → Bool
  | [], _ => true
  | _ :: _, [] => false
  | a :: as, b :: bs => a == b && charsPrefix as bs

/-- `regexp.MustCompile("^https?://.*").MatchString uri`: the pattern is
anchored at the start and ends in `.*`, so it holds exactly of strings
beginning with `http://` or `https://`. -/
def uriMatchesHTTP (s : String) : Bool :=
  charsPrefix "http://".data s.data || charsPrefix "https://".data s.data

/-- Tail of `FolderResource.Create` from the `api.Folder{...}` literal on:
the `CreateFolder` call and the state population. -/
def folderCreateStep (c : Client) (plan : FolderResourceModel)
    (parentFolderID : String) (trace : List Call) :
    OpResult FolderResourceModel × List Call :=
  let folder : Folder :=
    { id := "", name := plan.name.valueString,
      folderParentID := parentFolderID, personal := false }
  match c.createFolder folder with
  | .error e =>
    (.err { path := none, summary := "Error creating folder",
            detail := "Could not create folder, unexpected error: " ++ e.message },
     trace ++ [.createFolder folder])
  | .ok createdFolder =>
    (.ok
      { plan with
        id := TFString.value createdFolder.id,
        personal := TFBool.value createdFolder.personal },
     trace ++ [.createFolder folder])

/-- `FolderResource.Create`. -/
def FolderResource.create (c : Client) (plan : FolderResourceModel) :
    OpResult FolderResourceModel × List Call :=
  if plan.name.valueString == "" then
    (.err { path := none, summary := "Validation Error",
            detail := "Name cannot be empty" }, [])
  else if !plan.folderParent.isNull && !plan.folderParent.isUnknown then
    match c.getFolders with
    | .error e =>
      (.err { path := none, summary := "Cannot get folders", detail := e.message },
       [.getFolders])
    | .ok folders =>
      let parentFolderID := resolveFolderID folders plan.folderParent.valueString
      if parentFolderID == "" then
        (.err { path := none, summary := "Validation Error",
                detail := "Parent folder \u0027" ++ plan.folderParent.valueString
                  ++ "\u0027 not found" },
         [.getFolders])
      else
        folderCreateStep c plan parentFolderID [.getFolders]
  else
    folderCreateStep c plan "" []

/-- `FolderResource.Read`. -/
def FolderResource.read (c : Client) (state : FolderResourceModel) :
    ReadResult FolderResourceModel × List Call :=
  match c.getFolder state.id.valueString with
  | .error e =>
    (.err { path := none, summary := "Error reading folder",
            detail := "Could not read folder, unexpected error: " ++ e.message },
     [.getFolder state.id.valueString])
  | .ok folder =>
    let st :=
      { state with
        name := TFString.value folder.name,
        personal := TFBool.value folder.personal }
    if folder.folderParentID != "" then
      match c.getFolder folder.folderParentID with
      | .ok parentFolder =>
        (.ok { st with folderParent := .value parentFolder.name },
         [.getFolder state.id.valueString, .getFolder folder.folderParentID])
      | .error _ =>
        (.ok st, [.getFolder state.id.valueString, .getFolder folder.folderParentID])
    else
      (.ok { st with folderParent := .null }, [.getFolder state.id.valueString])

/-- The recreation comparisons of `FolderResource.Update`: plan name against
the freshly read remote folder, plan parent-folder name against the locally
recorded state. -/
def folderNeedsRecreation (plan state : FolderResourceModel)
    (currentFolder : Folder) : Bool :=
  (plan.name.valueString != currentFolder.name) ||
  (plan.folderParent.valueString != state.folderParent.valueString)

/-- Tail of the recreation branch of `FolderResource.Update`: the
`CreateFolder` call, the state-id update, and the final assignment of
plan values into state. -/
def folderRecreateStep (c : Client) (plan state : FolderResourceModel)
    (parentFolderID : String) (trace : List Call) :
    OpResult FolderResourceModel × List Call :=
  let folder : Folder :=
    { id := "", name := plan.name.valueString,
      folderParentID := parentFolderID, personal := false }
  match c.createFolder folder with
  | .error e =>
    (.err { path := none, summary := "Cannot recreate folder", detail := e.message },
     trace ++ [.createFolder folder])
  | .ok createdFolder =>
    (.ok
      { state with
        id := TFString.value createdFolder.id,
        personal := TFBool.value createdFolder.personal,
        name := plan.name,
        folderParent := plan.folderParent },
     trace ++ [.createFolder folder])

/-- `FolderResource.Update`. -/
def FolderResource.update (c : Client) (plan state : FolderResourceModel) :
    OpResult FolderResourceModel × List Call :=
  match c.getFolder state.id.valueString with
  | .error e =>
    (.err { path := none, summary := "Error reading current folder",
            detail := "Could not read current folder, unexpected error: " ++ e.message },
     [.getFolder state.id.valueString])
  | .ok currentFolder =>
    if folderNeedsRecreation plan state currentFolder then
      match c.deleteFolder state.id.valueString with
      | .error e =>
        (.err { path := none, summary := "Error deleting old folder",
                detail := "Could not delete old folder, unexpected error: " ++ e.message },
         [.getFolder state.id.valueString, .deleteFolder state.id.valueString])
      | .ok _ =>
        if !plan.folderParent.isNull && !plan.folderParent.isUnknown then
          match c.getFolders with
          | .error e =>
            (.err { path := none, summary := "Cannot get folders", detail := e.message },
             [.getFolder state.id.valueString, .deleteFolder state.id.valueString,
              .getFolders])
          | .ok folders =>
            folderRecreateStep c plan state
              (resolveFolderID folders plan.folderParent.valueString)
              [.getFolder state.id.valueString, .deleteFolder state.id.valueString,
               .getFolders]
        else
          folderRecreateStep c plan state ""
            [.getFolder state.id.valueString, .deleteFolder state.id.valueString]
    else
      (.ok { state with name := plan.name, folderParent := plan.folderParent },
       [.getFolder state.id.valueString])

/-- The share-with-group block shared by `PasswordResource.Create` and the
recreation branch of `PasswordResource.Update`. -/
def passwordShareStep (c : Client) (shareGroup : TFString) (resourceID : String) :
    Except Diag Unit × List Call :=
  if !shareGroup.isNull && !shareGroup.isUnknown then
    match c.getGroups with
    | .error e =>
      (.error { path := none, summary := "Cannot get groups", detail := e.message },
       [.getGroups])
    | .ok groups =>
      let groupID := resolveGroupID groups shareGroup.valueString
      if groupID != "" then
        let shares : List ShareOperation :=
          [{ typ := 7, aro := "Group", aroID := groupID }]
        match c.shareResource resourceID shares with
        | .error e =>
          (.error { path := none, summary := "Cannot share resource",
                    detail := e.message },
           [.getGroups, .shareResource resourceID shares])
        | .ok _ =>
          (.ok (), [.getGroups, .shareResource resourceID shares])
      else
        (.ok (), [.getGroups])
  else
    (.ok (), [])

/-- Tail of `PasswordResource.Create` from the `helper.CreateResource` call
on: creation, optional share, state population. -/
def passwordCreateStep (c : Client) (plan : PasswordResourceModel)
    (folderID : String) (trace : List Call) :
    OpResult PasswordResourceModel × List Call :=
  match c.createResource folderID plan.name.valueString plan.username.valueString
      plan.uri.valueString plan.password.valueString plan.description.valueString with
  | .error e =>
    (.err { path := none, summary := "Cannot create resource", detail := e.message },
     trace ++ [.createResource folderID plan.name.valueString plan.username.valueString
       plan.uri.valueString plan.password.valueString plan.description.valueString])
  | .ok resourceID =>
    let tr := trace ++ [.createResource folderID plan.name.valueString
      plan.username.valueString plan.uri.valueString plan.password.valueString
      plan.description.valueString]
    match passwordShareStep c plan.shareGroup resourceID with
    | (.error d, str) => (.err d, tr ++ str)
    | (.ok _, str) =>
      (.ok { plan with id := .value resourceID }, tr ++ str)

/-- `PasswordResource.Create`. -/
def PasswordResource.create (c : Client) (plan : PasswordResourceModel) :
    OpResult PasswordResourceModel × List Call :=
  if plan.name.valueString == "" then
    (.err { path := none, summary := "Validation Error",
            detail := "Name cannot be empty" }, [])
  else if plan.username.valueString == "" then
    (.err { path := none, summary := "Validation Error",
            detail := "Username cannot be empty" }, [])
  else if plan.uri.valueString == "" then
    (.err { path := none, summary := "Validation Error",
            detail := "URI cannot be empty" }, [])
  else if plan.password.valueString == "" then
    (.err { path := none, summary := "Validation Error",
            detail := "Password cannot be empty" }, [])
  else if !(uriMatchesHTTP plan.uri.valueString) then
    (.err { path := none, summary := "Validation Error",
            detail := "URI must be a valid HTTP or HTTPS URL" }, [])
  else if !plan.folderParent.isNull && !plan.folderParent.isUnknown then
    match c.getFolders with
    | .error e =>
      (.err { path := none, summary := "Cannot get folders", detail := e.message },
       [.getFolders])
    | .ok folders =>
      let folderID := resolveFolderID folders plan.folderParent.valueString
      if folderID == "" then
        (.err { path := none, summary := "Validation Error",
                detail := "Folder \u0027" ++ plan.folderParent.valueString
                  ++ "\u0027 not found" },
         [.getFolders])
      else
        passwordCreateStep c plan folderID [.getFolders]
  else
    passwordCreateStep c plan "" []

/-- `PasswordResource.Read`. -/
def PasswordResource.read (c : Client) (state : PasswordResourceModel) :
    ReadResult PasswordResourceModel × List Call :=
  match c.getResource state.id.valueString with
  | .error e =>
    if isResourceNotFoundError e then
      (.removed, [.getResource state.id.valueString])
    else
      (.err { path := none, summary := "Error reading password",
              detail := "Could not read password, unexpected error: " ++ e.message },
       [.getResource state.id.valueString])
  | .ok res =>
    let st :=
      { state with
        name := TFString.value res.name,
        description := TFString.value res.description,
        username := TFString.value res.username,
        uri := TFString.value res.uri }
    if res.folderParentID != "" then
      match c.getFolders with
      | .error _ =>
        (.ok st, [.getResource state.id.valueString, .getFolders])
      | .ok folders =>
        match findFolderNameByID folders res.folderParentID with
        | some folderName =>
          (.ok { st with folderParent := .value folderName },
           [.getResource state.id.valueString, .getFolders])
        | none =>
          (.ok st, [.getResource state.id.valueString, .getFolders])
    else
      (.ok st, [.getResource state.id.valueString])

/-- The recreation comparisons of `PasswordResource.Update`: name,
description, username and uri against the freshly read remote resource;
password and parent-folder name against the locally recorded state. -/
def passwordNeedsRecreation (plan state : PasswordResourceModel)
    (currentResource : PBResource) : Bool :=
  (plan.name.valueString != currentResource.name) ||
  (plan.description.valueString != currentResource.description) ||
  (plan.username.valueString != currentResource.username) ||
  (plan.uri.valueString != currentResource.uri) ||
  (plan.password.valueString != state.password.valueString) ||
  (plan.folderParent.valueString != state.folderParent.valueString)

/-- Tail of the recreation branch of `PasswordResource.Update`: creation,
optional share, the state-id update, and the final assignment of plan
values into state. -/
def passwordRecreateStep (c : Client) (plan state : PasswordResourceModel)
    (folderID : String) (trace : List Call) :
    OpResult PasswordResourceModel × List Call :=
  match c.createResource folderID plan.name.valueString plan.username.valueString
      plan.uri.valueString plan.password.valueString plan.description.valueString with
  | .error e =>
    (.err { path := none, summary := "Cannot recreate resource", detail := e.message },
     trace ++ [.createResource folderID plan.name.valueString plan.username.valueString
       plan.uri.valueString plan.password.valueString plan.description.valueString])
  | .ok resourceID =>
    let tr := trace ++ [.createResource folderID plan.name.valueString
      plan.username.valueString plan.uri.valueString plan.password.valueString
      plan.description.valueString]
    match passwordShareStep c plan.shareGroup resourceID with
    | (.error d, str) => (.err d, tr ++ str)
    | (.ok _, str) =>
      (.ok
        { state with
          id := TFString.value resourceID,
          name := plan.name,
          description := plan.description,
          username := plan.username,
          uri := plan.uri,
          password := plan.password,
          folderParent := plan.folderParent,
          shareGroup := plan.shareGroup },
       tr ++ str)

/-- `PasswordResource.Update`. -/
def PasswordResource.update (c : Client) (plan state : PasswordResourceModel) :
    OpResult PasswordResourceModel × List Call :=
  match c.getResource state.id.valueString with
  | .error e =>
    (.err { path := none, summary := "Error reading current resource",
            detail := "Could not read current resource, unexpected error: " ++ e.message },
     [.getResource state.id.valueString])
  | .ok currentResource =>
    if passwordNeedsRecreation plan state currentResource then
      match c.deleteResource state.id.valueString with
      | .error e =>
        (.err { path := none, summary := "Error deleting old resource",
                detail := "Could not delete old resource, unexpected error: " ++ e.message },
         [.getResource state.id.valueString, .deleteResource state.id.valueString])
      | .ok _ =>
        if !plan.folderParent.isNull && !plan.folderParent.isUnknown then
          match c.getFolders with
          | .error e =>
            (.err { path := none, summary := "Cannot get folders", detail := e.message },
             [.getResource state.id.valueString, .deleteResource state.id.valueString,
              .getFolders])
          | .ok folders =>
            passwordRecreateStep c plan state
              (resolveFolderID folders plan.folderParent.valueString)
              [.getResource state.id.valueString, .deleteResource state.id.valueString,
               .getFolders]
        else
          passwordRecreateStep c plan state ""
            [.getResource state.id.valueString, .deleteResource state.id.valueString]
    else
      (.ok
        { state with
          name := plan.name,
          description := plan.description,
          username := plan.username,
          uri := plan.uri,
          password := plan.password,
          folderParent := plan.folderParent,
          shareGroup := plan.shareGroup },
       [.getResource state.id.valueString])

/-- The environment-variable values read by `Configure`
(`os.Getenv` yields `""` for an unset variable). -/
structure Env where
  baseURL : String
  privateKey : String
  passphrase : String
deriving DecidableEq, Repr

/-- `PassboltProviderModel`. -/
structure PassboltProviderModel where
  baseURL : TFString
  privateKey : TFString
  passphrase : TFString
deriving DecidableEq, Repr

/-- A remote call made during provider bootstrap: `api.NewClient` or
`client.Login`. -/
inductive BootCall
  | newClient (baseURL privateKey passphrase : String)
  | login
deriving DecidableEq, Repr

/-- Responses of the bootstrap calls. -/
structure BootAPI where
  newClient : String → String → String → Except GoError Unit
  login : Except GoError Unit

/-- Outcome of `Configure`: a configured client handed to the adapters, or
the accumulated diagnostics. -/
inductive ConfigureResult
  | ok
  | errs (diags : List Diag)
deriving DecidableEq, Repr

/-- The `baseURL := os.Getenv(...)`; `if !config.X.IsNull() { baseURL =
config.X.ValueString() }` fallback of `Configure`. -/
def effectiveValue (config : TFString) (envVal : String) : String :=
  if config.isNull then envVal else config.valueString

/-- `PassboltProvider.Configure`. -/
def PassboltProvider.configure (env : Env) (boot : BootAPI)
    (config : PassboltProviderModel) : ConfigureResult × List BootCall :=
  let unknownDiags : List Diag :=
    (if config.baseURL.isUnknown then
      [{ path := some "base_url", summary := "Unknown Passbolt Base URL",
         detail := "The provider cannot create the Passbolt API client as there is an unknown configuration value for the Passbolt base URL. Either target apply the source of the value first, or set the value statically in the configuration." }]
     else []) ++
    (if config.privateKey.isUnknown then
      [{ path := some "private_key", summary := "Unknown Passbolt Private Key",
         detail := "The provider cannot create the Passbolt API client as there is an unknown configuration value for the Passbolt private key. Either target apply the source of the value first, or set the value statically in the configuration." }]
     else []) ++
    (if config.passphrase.isUnknown then
      [{ path := some "passphrase", summary := "Unknown Passbolt Passphrase",
         detail := "The provider cannot create the Passbolt API client as there is an unknown configuration value for the Passbolt passphrase. Either target apply the source of the value first, or set the value statically in the configuration." }]
     else [])
  if unknownDiags.isEmpty = false then
    (.errs unknownDiags, [])
  else
    let baseURL := effectiveValue config.baseURL env.baseURL
    let privateKey := effectiveValue config.privateKey env.privateKey
    let passphrase := effectiveValue config.passphrase env.passphrase
    let missingDiags : List Diag :=
      (if baseURL == "" then
        [{ path := some "base_url", summary := "Missing Passbolt Base URL",
           detail := "The provider cannot create the Passbolt API client as there is a missing or empty value for the Passbolt base URL. Set the base_url value in the configuration or use the PASSBOLT_BASE_URL environment variable. If either is already set, ensure the value is not empty." }]
       else []) ++
      (if privateKey == "" then
        [{ path := some "private_key", summary := "Missing Passbolt Private Key",
           detail := "The provider cannot create the Passbolt API client as there is a missing or empty value for the Passbolt private key. Set the private_key value in the configuration or use the PASSBOLT_PRIVATE_KEY environment variable. If either is already set, ensure the value is not empty." }]
       else []) ++
      (if passphrase == "" then
        [{ path := some "passphrase", summary := "Missing Passbolt Passphrase",
           detail := "The provider cannot create the Passbolt API client as there is a missing or empty value for the Passbolt passphrase. Set the passphrase value in the configuration or use the PASSBOLT_PASSPHRASE environment variable. If either is already set, ensure the value is not empty." }]
       else [])
    if missingDiags.isEmpty = false then
      (.errs missingDiags, [])
    else
      match boot.newClient baseURL privateKey passphrase with
      | .error e =>
        (.errs [{ path := none, summary := "Unable to create Passbolt API client",
                  detail := "Cannot create the Passbolt API client: " ++ e.message }],
         [.newClient baseURL privateKey passphrase])
      | .ok _ =>
        match boot.login with
        | .error e =>
          (.errs [{ path := none, summary := "Unable to login to Passbolt",
                    detail := "Cannot login to Passbolt: " ++ e.message }],
           [.newClient baseURL privateKey passphrase, .login])
        | .ok _ =>
          (.ok, [.newClient baseURL privateKey passphrase, .login])

/-! Concrete fixtures used to instantiate the theorems. -/

def folderA : Folder :=
  { id := "fid-1", name := "parentA", folderParentID := "", personal := false }

def resourceA : PBResource :=
  { id := "rid-1", name := "db", description := "d", username := "admin",
    uri := "https://db.example.com", folderParentID := "" }

def groupA : Group :=
  { id := "gid-1", name := "team" }

def transportErr : GoError :=
  { message := "connection reset", resourceNotFound := false }

def notFoundErr : GoError :=
  { message := "resource not found", resourceNotFound := true }

/-- A remote on which every call succeeds with fixed data. -/
def cAllOk : Client :=
  { getFolders := .ok [folderA],
    getFolder := fun fid =>
      .ok { id := fid, name := "parentA", folderParentID := "", personal := false },
    createFolder := fun f => .ok { f with id := "folder-new" },
    deleteFolder := fun _ => .ok (),
    getResource := fun rid => .ok { resourceA with id := rid },
    createResource := fun _ _ _ _ _ _ => .ok "res-new",
    deleteResource := fun _ => .ok (),
    getGroups := .ok [groupA],
    shareResource := fun _ _ => .ok () }

/-- A remote on which every call fails with a not-found error. -/
def cNotFound : Client :=
  { getFolders := .error notFoundErr,
    getFolder := fun _ => .error notFoundErr,
    createFolder := fun _ => .error notFoundErr,
    deleteFolder := fun _ => .error notFoundErr,
    getResource := fun _ => .error notFoundErr,
    createResource := fun _ _ _ _ _ _ => .error notFoundErr,
    deleteResource := fun _ => .error notFoundErr,
    getGroups := .error notFoundErr,
    shareResource := fun _ _ => .error notFoundErr }

/-- A remote on which reads and deletes succeed but creation fails. -/
def cCreateFails : Client :=
  { cAllOk with
    createFolder := fun _ => .error transportErr,
    createResource := fun _ _ _ _ _ _ => .error transportErr }

def passStateA : PasswordResourceModel :=
  { id := .value "rid-1", name := .value "db", description := .value "d",
    username := .value "admin", uri := .value "https://db.example.com",
    password := .value "pw", folderParent := .null, shareGroup := .null }

def folderStateA : FolderResourceModel :=
  { id := .value "fid-1", name := .value "parentA", personal := .value false,
    folderParent := .null }

/-- Claim C6: for every secret-entry create whose uri does not match
`^https?://`, the create fails with a validation error before any remote
call is made (no folder listing, no creation call). -/
theorem passwordCreate_invalid_uri_fails_before_remote
    (c : Client) (plan : PasswordResourceModel)
    (h : uriMatchesHTTP plan.uri.valueString = false) :
    (∃ d, (PasswordResource.create c plan).1 = OpResult.err d ∧
      d.summary = "Validation Error") ∧
    (PasswordResource.create c plan).2 = [] := by
  unfold PasswordResource.create
  cases h1 : (plan.name.valueString == "") <;>
    cases h2 : (plan.username.valueString == "") <;>
      cases h3 : (plan.uri.valueString == "") <;>
        cases h4 : (plan.password.valueString == "") <;>
          simp [h1, h2, h3, h4, h]

def passPlanBadURI : PasswordResourceModel :=
  { passStateA with uri := .value "ftp://files.example.com" }

/-- Witness for C6 at a concrete plan with a non-HTTP uri. -/
theorem passwordCreate_invalid_uri_witness :
    uriMatchesHTTP passPlanBadURI.uri.valueString = false ∧
    ((∃ d, (PasswordResource.create cAllOk passPlanBadURI).1 = OpResult.err d ∧
      d.summary = "Validation Error") ∧
    (PasswordResource.create cAllOk passPlanBadURI).2 = []) :=
  ⟨by decide,
   passwordCreate_invalid_uri_fails_before_remote cAllOk passPlanBadURI (by decide)⟩

/-- Claim C7: every read of a secret entry leaves the password field of the
tracked state unchanged: it is never overwritten from the remote response. -/
theorem passwordRead_preserves_password
    (c : Client) (state st2 : PasswordResourceModel)
    (h : (PasswordResource.read c state).1 = ReadResult.ok st2) :
    st2.password = state.password := by
  unfold PasswordResource.read at h
  cases hg : c.getResource state.id.valueString with
  | error e =>
    rw [hg] at h
    cases hnf : isResourceNotFoundError e <;> simp [hnf] at h
  | ok res =>
    rw [hg] at h
    simp only at h
    cases hfp : (res.folderParentID != "") with
    | false => simp [hfp] at h; subst h; rfl
    | true =>
      rw [if_pos] at h
      · cases hgf : c.getFolders with
        | error e2 => rw [hgf] at h; simp at h; subst h; rfl
        | ok folders =>
          rw [hgf] at h
          simp only at h
          cases hfind : findFolderNameByID folders res.folderParentID with
          | none => rw [hfind] at h; simp at h; subst h; rfl
          | some nm => rw [hfind] at h; simp at h; subst h; rfl
      · exact hfp

/-- Witness for C7: a successful concrete read keeps the recorded password. -/
theorem passwordRead_preserves_password_witness :
    (PasswordResource.read cAllOk passStateA).1 =
      ReadResult.ok passStateA ∧
    passStateA.password = passStateA.password :=
  ⟨by decide,
   passwordRead_preserves_password cAllOk passStateA passStateA (by decide)⟩

/-- Claim C2 counterexample: on a remote whose read fails with an error
classified as not-found, the folder adapter does NOT remove the entry from
tracked state; it reports an error (so the claim's "both folder and secret
entry" is false for folders). -/
theorem folderRead_notFound_reports_error :
    isResourceNotFoundError notFoundErr = true ∧
    cNotFound.getFolder folderStateA.id.valueString = Except.error notFoundErr ∧
    (FolderResource.read cNotFound folderStateA).1 ≠
      ReadResult.removed ∧
    (FolderResource.read cNotFound folderStateA).1 =
      ReadResult.err
        { path := none, summary := "Error reading folder",
          detail := "Could not read folder, unexpected error: resource not found" } :=
  ⟨rfl, rfl, by decide, by decide⟩

/-- Claim C2 (amended): for secret entries, a read whose remote failure is
classified not-found removes the entry from tracked state and raises no
error, and any other read failure is reported as an error leaving state in
place; for folders, every read failure — not-found included — is reported
as an error and leaves state in place. -/
theorem read_notFound_handling :
    (∀ (c : Client) (st : PasswordResourceModel) (e : GoError),
      c.getResource st.id.valueString = Except.error e →
      (isResourceNotFoundError e = true →
        PasswordResource.read c st =
          (ReadResult.removed, [Call.getResource st.id.valueString])) ∧
      (isResourceNotFoundError e = false →
        PasswordResource.read c st =
          (ReadResult.err
            { path := none, summary := "Error reading password",
              detail := "Could not read password, unexpected error: " ++ e.message },
           [Call.getResource st.id.valueString]))) ∧
    (∀ (c : Client) (st : FolderResourceModel) (e : GoError),
      c.getFolder st.id.valueString = Except.error e →
      FolderResource.read c st =
        (ReadResult.err
          { path := none, summary := "Error reading folder",
            detail := "Could not read folder, unexpected error: " ++ e.message },
         [Call.getFolder st.id.valueString])) := by
  constructor
  · intro c st e hg
    constructor <;> intro hnf <;> unfold PasswordResource.read <;> rw [hg] <;>
      simp [hnf]
  · intro c st e hg
    unfold FolderResource.read
    rw [hg]

/-- Witness for the amended C2 at concrete remotes: a not-found read of a
secret entry removes state; a transport failure reports an error. -/
theorem read_notFound_handling_witness :
    cNotFound.getResource passStateA.id.valueString = Except.error notFoundErr ∧
    PasswordResource.read cNotFound passStateA =
      (ReadResult.removed, [Call.getResource passStateA.id.valueString]) ∧
    FolderResource.read cNotFound folderStateA =
      (ReadResult.err
        { path := none, summary := "Error reading folder",
          detail := "Could not read folder, unexpected error: resource not found" },
       [Call.getFolder folderStateA.id.valueString]) :=
  ⟨rfl,
   (read_notFound_handling.1 cNotFound passStateA notFoundErr rfl).1 rfl,
   read_notFound_handling.2 cNotFound folderStateA notFoundErr rfl⟩

/-- Claim C3: for every configuration triple in which any field is the empty
string after applying the environment-variable fallback (the fallback runs
when no field is unknown), Configure fails with an error attributed to that
specific field and performs no remote call: neither client construction nor
login is attempted. -/
theorem configure_missing_field_errors
    (env : Env) (boot : BootAPI) (config : PassboltProviderModel)
    (hbu : config.baseURL.isUnknown = false)
    (hku : config.privateKey.isUnknown = false)
    (hpu : config.passphrase.isUnknown = false)
    (hmiss : effectiveValue config.baseURL env.baseURL = "" ∨
      effectiveValue config.privateKey env.privateKey = "" ∨
      effectiveValue config.passphrase env.passphrase = "") :
    (∃ ds, (PassboltProvider.configure env boot config).1 = ConfigureResult.errs ds ∧
      (effectiveValue config.baseURL env.baseURL = "" →
        ∃ d ∈ ds, d.path = some "base_url" ∧
          d.summary = "Missing Passbolt Base URL") ∧
      (effectiveValue config.privateKey env.privateKey = "" →
        ∃ d ∈ ds, d.path = some "private_key" ∧
          d.summary = "Missing Passbolt Private Key") ∧
      (effectiveValue config.passphrase env.passphrase = "" →
        ∃ d ∈ ds, d.path = some "passphrase" ∧
          d.summary = "Missing Passbolt Passphrase")) ∧
    (PassboltProvider.configure env boot config).2 = [] := by
  unfold PassboltProvider.configure
  simp only [hbu, hku, hpu, if_false, List.append_nil, List.isEmpty_nil]
  cases hb : (effectiveValue config.baseURL env.baseURL == "") <;>
    cases hk : (effectiveValue config.privateKey env.privateKey == "") <;>
      cases hp : (effectiveValue config.passphrase env.passphrase == "") <;>
        simp_all [effectiveValue]

def configMissing : PassboltProviderModel :=
  { baseURL := .value "https://pb.example.com", privateKey := .null,
    passphrase := .value "" }

def envEmpty : Env :=
  { baseURL := "", privateKey := "", passphrase := "" }

def bootOk : BootAPI :=
  { newClient := fun _ _ _ => .ok (), login := .ok () }

/-- Witness for C3: a configuration whose private key and passphrase are
empty after fallback yields field-attributed errors and an empty call
trace. -/
theorem configure_missing_field_errors_witness :
    effectiveValue configMissing.privateKey envEmpty.privateKey = "" ∧
    ((∃ ds, (PassboltProvider.configure envEmpty bootOk configMissing).1 =
        ConfigureResult.errs ds ∧
      (effectiveValue configMissing.baseURL envEmpty.baseURL = "" →
        ∃ d ∈ ds, d.path = some "base_url" ∧
          d.summary = "Missing Passbolt Base URL") ∧
      (effectiveValue configMissing.privateKey envEmpty.privateKey = "" →
        ∃ d ∈ ds, d.path = some "private_key" ∧
          d.summary = "Missing Passbolt Private Key") ∧
      (effectiveValue configMissing.passphrase envEmpty.passphrase = "" →
        ∃ d ∈ ds, d.path = some "passphrase" ∧
          d.summary = "Missing Passbolt Passphrase")) ∧
    (PassboltProvider.configure envEmpty bootOk configMissing).2 = []) :=
  ⟨rfl,
   configure_missing_field_errors envEmpty bootOk configMissing rfl rfl rfl
     (Or.inr (Or.inl rfl))⟩

/-- A single apostrophe, the quote character used in the Go not-found
messages. -/
def sq : String := "\u0027"

/-- Helper: the scan returns `""` when no folder in the collection bears the
name. -/
theorem resolveFolderID_eq_empty_of_no_match (folders : List Folder) (nm : String)
    (h : ∀ f ∈ folders, f.name ≠ nm) : resolveFolderID folders nm = "" := by
  induction folders with
  | nil => rfl
  | cons f rest ih =>
    have hf : f.name ≠ nm := h f (List.mem_cons_self f rest)
    simp only [resolveFolderID]
    rw [if_neg]
    · exact ih fun g hg => h g (List.mem_cons_of_mem f hg)
    · simpa using hf

/-- Claim C8: for every update (folder or secret entry) in which no
identity-relevant field differs from the compared value, no remote delete
or create call is performed (the only remote call is the initial read) and
the tracked id remains the same. -/
theorem update_no_change_keeps_id :
    (∀ (c : Client) (plan state : PasswordResourceModel) (cur : PBResource),
      c.getResource state.id.valueString = Except.ok cur →
      passwordNeedsRecreation plan state cur = false →
      (PasswordResource.update c plan state).2 =
        [Call.getResource state.id.valueString] ∧
      ∃ st2, (PasswordResource.update c plan state).1 = OpResult.ok st2 ∧
        st2.id = state.id) ∧
    (∀ (c : Client) (plan state : FolderResourceModel) (cur : Folder),
      c.getFolder state.id.valueString = Except.ok cur →
      folderNeedsRecreation plan state cur = false →
      (FolderResource.update c plan state).2 =
        [Call.getFolder state.id.valueString] ∧
      ∃ st2, (FolderResource.update c plan state).1 = OpResult.ok st2 ∧
        st2.id = state.id) := by
  constructor
  · intro c plan state cur hg hn
    unfold PasswordResource.update
    rw [hg]
    simp only [hn]
    exact ⟨rfl, _, rfl, rfl⟩
  · intro c plan state cur hg hn
    unfold FolderResource.update
    rw [hg]
    simp only [hn]
    exact ⟨rfl, _, rfl, rfl⟩

/-- Witness for C8: concrete updates whose plans match the compared values
leave the trace at a single read and keep the ids. -/
theorem update_no_change_keeps_id_witness :
    passwordNeedsRecreation passStateA passStateA resourceA = false ∧
    ((PasswordResource.update cAllOk passStateA passStateA).2 =
      [Call.getResource passStateA.id.valueString] ∧
     ∃ st2, (PasswordResource.update cAllOk passStateA passStateA).1 =
        OpResult.ok st2 ∧ st2.id = passStateA.id) ∧
    ((FolderResource.update cAllOk folderStateA folderStateA).2 =
      [Call.getFolder folderStateA.id.valueString] ∧
     ∃ st2, (FolderResource.update cAllOk folderStateA folderStateA).1 =
        OpResult.ok st2 ∧ st2.id = folderStateA.id) :=
  ⟨by decide,
   update_no_change_keeps_id.1 cAllOk passStateA passStateA resourceA rfl
     (by decide),
   update_no_change_keeps_id.2 cAllOk folderStateA folderStateA
     { id := "fid-1", name := "parentA", folderParentID := "", personal := false }
     rfl (by decide)⟩

/-- Claim C4: in both creates, a parent-folder name matching zero folders in
the freshly fetched collection fails the create with an explicit not-found
error and no remote creation call; and when the collection holds exactly
one folder with that name, the name-to-id scan resolves to that folder's
id (exact string equality, first match wins). -/
theorem create_parent_folder_resolution :
    (∀ (folders : List Folder) (nm : String) (f : Folder),
      f ∈ folders → f.name = nm →
      (∀ g ∈ folders, g.name = nm → g = f) →
      resolveFolderID folders nm = f.id) ∧
    (∀ (c : Client) (plan : FolderResourceModel) (folders : List Folder),
      plan.name.valueString ≠ "" →
      (!plan.folderParent.isNull && !plan.folderParent.isUnknown) = true →
      c.getFolders = Except.ok folders →
      (∀ f ∈ folders, f.name ≠ plan.folderParent.valueString) →
      FolderResource.create c plan =
        (OpResult.err
          { path := none, summary := "Validation Error",
            detail := "Parent folder " ++ sq ++ plan.folderParent.valueString
              ++ sq ++ " not found" },
         [Call.getFolders])) ∧
    (∀ (c : Client) (plan : PasswordResourceModel) (folders : List Folder),
      plan.name.valueString ≠ "" →
      plan.username.valueString ≠ "" →
      plan.uri.valueString ≠ "" →
      plan.password.valueString ≠ "" →
      uriMatchesHTTP plan.uri.valueString = true →
      (!plan.folderParent.isNull && !plan.folderParent.isUnknown) = true →
      c.getFolders = Except.ok folders →
      (∀ f ∈ folders, f.name ≠ plan.folderParent.valueString) →
      PasswordResource.create c plan =
        (OpResult.err
          { path := none, summary := "Validation Error",
            detail := "Folder " ++ sq ++ plan.folderParent.valueString
              ++ sq ++ " not found" },
         [Call.getFolders])) := by
  refine ⟨?_, ?_, ?_⟩
  · intro folders nm f hmem hname huniq
    induction folders with
    | nil => cases hmem
    | cons g rest ih =>
      simp only [resolveFolderID]
      cases hg : (g.name == nm) with
      | true =>
        have : g = f := huniq g (List.mem_cons_self g rest) (by simpa using hg)
        simp [this]
      | false =>
        have hgf : f ∈ rest := by
          rcases List.mem_cons.1 hmem with h | h
          · rw [← h] at hg; simp [hname] at hg
          · exact h
        simp only [Bool.false_eq_true, if_false]
        exact ih hgf fun g2 hg2 => huniq g2 (List.mem_cons_of_mem g hg2)
  · intro c plan folders hn hfp hg hnomatch
    have hres := resolveFolderID_eq_empty_of_no_match folders
      plan.folderParent.valueString hnomatch
    unfold FolderResource.create
    rw [hg]
    simp [hn, hfp, hres, sq, String.append_assoc]
  · intro c plan folders hn hu hur hpw hregex hfp hg hnomatch
    have hres := resolveFolderID_eq_empty_of_no_match folders
      plan.folderParent.valueString hnomatch
    unfold PasswordResource.create
    rw [hg]
    simp [hn, hu, hur, hpw, hregex, hfp, hres, sq, String.append_assoc]

def folderPlanGhost : FolderResourceModel :=
  { id := .null, name := .value "Infra", personal := .null,
    folderParent := .value "nosuch" }

/-- Witness for C4 at concrete inputs: the fixture collection holds exactly
one folder named parentA and the scan returns its id; a create referring to
the absent name nosuch fails with the not-found error after only the
folder listing. -/
theorem create_parent_folder_resolution_witness :
    resolveFolderID [folderA] "parentA" = folderA.id ∧
    FolderResource.create cAllOk folderPlanGhost =
      (OpResult.err
        { path := none, summary := "Validation Error",
          detail := "Parent folder " ++ sq ++ "nosuch" ++ sq ++ " not found" },
       [Call.getFolders]) :=
  ⟨create_parent_folder_resolution.1 [folderA] "parentA" folderA
    (List.mem_singleton.2 rfl) rfl
    (fun g hg _ => List.mem_singleton.1 hg),
   create_parent_folder_resolution.2.1 cAllOk folderPlanGhost [folderA]
    (by decide) rfl rfl (by decide)⟩

/-- Helper: when the group listing succeeds and sharing succeeds, the share
step returns ok (whether or not a share group is set or resolvable). -/
theorem passwordShareStep_ok_of_remote_ok (c : Client) (sg : TFString)
    (rid : String) (groups : List Group)
    (hgr : c.getGroups = Except.ok groups)
    (hsh : ∀ ops, c.shareResource rid ops = Except.ok ()) :
    (passwordShareStep c sg rid).1 = Except.ok () := by
  unfold passwordShareStep
  cases hb : (!sg.isNull && !sg.isUnknown) with
  | false => simp [hb]
  | true =>
    rw [hgr]
    cases hng : (resolveGroupID groups sg.valueString != "") <;>
      simp [hb, hng, hsh]

/-- Helper: the share step emits only group-listing and share calls, never a
create, delete or patch. -/
theorem passwordShareStep_trace_mutation_free (c : Client) (sg : TFString)
    (rid : String) :
    (passwordShareStep c sg rid).2.all
      (fun k => !(k.isDeleteResource || k.isCreateResource ||
        k.isPatchResource || k.isDeleteFolder || k.isCreateFolder)) = true := by
  unfold passwordShareStep
  cases hb : (!sg.isNull && !sg.isUnknown) with
  | false => simp [hb]
  | true =>
    cases hgr : c.getGroups with
    | error e =>
      simp [hb, Call.isDeleteResource, Call.isCreateResource,
        Call.isPatchResource, Call.isDeleteFolder, Call.isCreateFolder]
    | ok groups =>
      cases hng : (resolveGroupID groups sg.valueString != "") with
      | false =>
        simp [hb, hng, Call.isDeleteResource, Call.isCreateResource,
          Call.isPatchResource, Call.isDeleteFolder, Call.isCreateFolder]
      | true =>
        simp only [hb, hng, if_true]
        split <;>
          simp [Call.isDeleteResource, Call.isCreateResource,
            Call.isPatchResource, Call.isDeleteFolder, Call.isCreateFolder]

/-- Helper: under a remote where the creation call and sharing succeed, the
password recreate tail returns the new id, assigns the plan fields into
state, and appends exactly one create call followed by mutation-free share
calls. -/
theorem passwordRecreateStep_ok (c : Client) (plan state : PasswordResourceModel)
    (fid rid : String) (tr : List Call) (groups : List Group)
    (hcr : c.createResource fid plan.name.valueString plan.username.valueString
      plan.uri.valueString plan.password.valueString plan.description.valueString
      = Except.ok rid)
    (hgr : c.getGroups = Except.ok groups)
    (hsh : ∀ ops, c.shareResource rid ops = Except.ok ()) :
    (passwordRecreateStep c plan state fid tr).1 =
      OpResult.ok
        { state with
          id := TFString.value rid,
          name := plan.name,
          description := plan.description,
          username := plan.username,
          uri := plan.uri,
          password := plan.password,
          folderParent := plan.folderParent,
          shareGroup := plan.shareGroup } ∧
    ∃ str, (passwordRecreateStep c plan state fid tr).2 =
        tr ++ [Call.createResource fid plan.name.valueString
          plan.username.valueString plan.uri.valueString
          plan.password.valueString plan.description.valueString] ++ str ∧
      str.all (fun k => !(k.isDeleteResource || k.isCreateResource ||
        k.isPatchResource || k.isDeleteFolder || k.isCreateFolder)) = true := by
  have hshok := passwordShareStep_ok_of_remote_ok c plan.shareGroup rid groups hgr hsh
  have hshtr := passwordShareStep_trace_mutation_free c plan.shareGroup rid
  unfold passwordRecreateStep
  rw [hcr]
  cases hps : passwordShareStep c plan.shareGroup rid with
  | mk r str =>
    rw [hps] at hshok hshtr
    simp only at hshok hshtr
    cases r with
    | error d => simp at hshok
    | ok u => refine ⟨?_, str, ?_, hshtr⟩ <;> simp [hps]

/-- Claim C5: for every secret-entry create with a share-group name that
matches no group in the fetched collection, the share step is skipped (no
share call is made), the creation still succeeds, and no error is
reported. -/
theorem passwordCreate_unresolved_group_skips_share
    (c : Client) (plan : PasswordResourceModel) (folders : List Folder)
    (groups : List Group) (rid : String)
    (hn : plan.name.valueString ≠ "")
    (hu : plan.username.valueString ≠ "")
    (hur : plan.uri.valueString ≠ "")
    (hpw : plan.password.valueString ≠ "")
    (hregex : uriMatchesHTTP plan.uri.valueString = true)
    (hfold : (!plan.folderParent.isNull && !plan.folderParent.isUnknown) = true →
      c.getFolders = Except.ok folders ∧
      resolveFolderID folders plan.folderParent.valueString ≠ "")
    (hcr : ∀ fid, c.createResource fid plan.name.valueString
      plan.username.valueString plan.uri.valueString plan.password.valueString
      plan.description.valueString = Except.ok rid)
    (hsg : (!plan.shareGroup.isNull && !plan.shareGroup.isUnknown) = true)
    (hgr : c.getGroups = Except.ok groups)
    (hnog : resolveGroupID groups plan.shareGroup.valueString = "") :
    (PasswordResource.create c plan).1 =
      OpResult.ok { plan with id := TFString.value rid } ∧
    (PasswordResource.create c plan).2.all
      (fun k => !k.isShareResource) = true := by
  have hstep : ∀ fid tr, passwordCreateStep c plan fid tr =
      (OpResult.ok { plan with id := TFString.value rid },
       tr ++ [Call.createResource fid plan.name.valueString
         plan.username.valueString plan.uri.valueString
         plan.password.valueString plan.description.valueString] ++
       [Call.getGroups]) := by
    intro fid tr
    unfold passwordCreateStep passwordShareStep
    rw [hcr fid, hgr]
    simp [hsg, hnog]
  unfold PasswordResource.create
  cases hb : (!plan.folderParent.isNull && !plan.folderParent.isUnknown) with
  | false =>
    refine ⟨?_, ?_⟩ <;>
      simp [hn, hu, hur, hpw, hregex, hb, hstep, Call.isShareResource]
  | true =>
    obtain ⟨hf, hres⟩ := hfold hb
    refine ⟨?_, ?_⟩ <;>
      simp [hn, hu, hur, hpw, hregex, hb, hf, hres, hstep, Call.isShareResource]

def passPlanNoGroup : PasswordResourceModel :=
  { passStateA with shareGroup := .value "nosuchgroup" }

/-- Witness for C5: a concrete create naming an absent group succeeds with
the new id and its trace holds no share call. -/
theorem passwordCreate_unresolved_group_witness :
    resolveGroupID [groupA] passPlanNoGroup.shareGroup.valueString = "" ∧
    ((PasswordResource.create cAllOk passPlanNoGroup).1 =
      OpResult.ok { passPlanNoGroup with id := TFString.value "res-new" } ∧
    (PasswordResource.create cAllOk passPlanNoGroup).2.all
      (fun k => !k.isShareResource) = true) :=
  ⟨rfl,
   passwordCreate_unresolved_group_skips_share cAllOk passPlanNoGroup []
     [groupA] "res-new" (by decide) (by decide) (by decide) (by decide)
     (by decide) (fun hb => absurd hb (by decide))
     (fun fid => rfl) (by decide) rfl rfl⟩

/-- Claim C1: for every secret-entry update in which any of name,
description, username, uri (compared against the freshly read remote
object), password, or parent-folder name (compared against the locally
recorded state) differs, the update performs full recreation — a delete of
the old id followed by a create producing the new id, which becomes the
tracked id — and no field-level patch call is ever made. -/
theorem passwordUpdate_recreates_on_any_diff
    (c : Client) (plan state : PasswordResourceModel) (cur : PBResource)
    (folders : List Folder) (groups : List Group) (rid : String)
    (hget : c.getResource state.id.valueString = Except.ok cur)
    (hdiff : passwordNeedsRecreation plan state cur = true)
    (hdel : c.deleteResource state.id.valueString = Except.ok ())
    (hf : c.getFolders = Except.ok folders)
    (hcr : ∀ fid, c.createResource fid plan.name.valueString
      plan.username.valueString plan.uri.valueString plan.password.valueString
      plan.description.valueString = Except.ok rid)
    (hgr : c.getGroups = Except.ok groups)
    (hsh : ∀ r ops, c.shareResource r ops = Except.ok ()) :
    (∃ st2, (PasswordResource.update c plan state).1 = OpResult.ok st2 ∧
      st2.id = TFString.value rid) ∧
    (∃ fid, (PasswordResource.update c plan state).2.filter
        (fun k => k.isDeleteResource || k.isCreateResource) =
      [Call.deleteResource state.id.valueString,
       Call.createResource fid plan.name.valueString plan.username.valueString
         plan.uri.valueString plan.password.valueString
         plan.description.valueString]) ∧
    (PasswordResource.update c plan state).2.all
      (fun k => !k.isPatchResource) = true := by
  unfold PasswordResource.update
  rw [hget]
  simp only [hdiff, if_true]
  rw [hdel]
  cases hb : (!plan.folderParent.isNull && !plan.folderParent.isUnknown) with
  | false =>
    simp only [hb, Bool.false_eq_true, if_false]
    obtain ⟨h1, str, h2, h3⟩ := passwordRecreateStep_ok c plan state "" rid
      [Call.getResource state.id.valueString,
       Call.deleteResource state.id.valueString] groups (hcr "") hgr (hsh rid)
    have hstr := fun k hk => List.all_eq_true.1 h3 k hk
    have hfil : str.filter (fun k => k.isDeleteResource || k.isCreateResource)
        = [] := by
      rw [List.filter_eq_nil_iff]
      intro k hk
      have hx := hstr k hk
      simp at hx ⊢
      tauto
    have hall : str.all (fun k => !k.isPatchResource) = true := by
      apply List.all_eq_true.2
      intro k hk
      have hx := hstr k hk
      simp at hx ⊢
      tauto
    refine ⟨⟨_, h1, rfl⟩, ⟨"", ?_⟩, ?_⟩
    · rw [h2, List.filter_append, List.filter_append, hfil]
      simp [Call.isDeleteResource, Call.isCreateResource]
    · rw [h2, List.all_append, List.all_append, hall]
      simp [Call.isPatchResource]
  | true =>
    rw [hf]
    simp only [hb, if_true]
    obtain ⟨h1, str, h2, h3⟩ := passwordRecreateStep_ok c plan state
      (resolveFolderID folders plan.folderParent.valueString) rid
      [Call.getResource state.id.valueString,
       Call.deleteResource state.id.valueString, Call.getFolders] groups
      (hcr (resolveFolderID folders plan.folderParent.valueString)) hgr (hsh rid)
    have hstr := fun k hk => List.all_eq_true.1 h3 k hk
    have hfil : str.filter (fun k => k.isDeleteResource || k.isCreateResource)
        = [] := by
      rw [List.filter_eq_nil_iff]
      intro k hk
      have hx := hstr k hk
      simp at hx ⊢
      tauto
    have hall : str.all (fun k => !k.isPatchResource) = true := by
      apply List.all_eq_true.2
      intro k hk
      have hx := hstr k hk
      simp at hx ⊢
      tauto
    refine ⟨⟨_, h1, rfl⟩,
      ⟨resolveFolderID folders plan.folderParent.valueString, ?_⟩, ?_⟩
    · rw [h2, List.filter_append, List.filter_append, hfil]
      simp [Call.isDeleteResource, Call.isCreateResource]
    · rw [h2, List.all_append, List.all_append, hall]
      simp [Call.isPatchResource]

def passPlanNewName : PasswordResourceModel :=
  { passStateA with name := .value "db2" }

/-- Witness for C1: a concrete update whose planned name differs from the
remote name deletes the old id, creates a new one, and tracks the new
id. -/
theorem passwordUpdate_recreates_witness :
    passwordNeedsRecreation passPlanNewName passStateA resourceA = true ∧
    ((∃ st2, (PasswordResource.update cAllOk passPlanNewName passStateA).1 =
        OpResult.ok st2 ∧ st2.id = TFString.value "res-new") ∧
     (∃ fid, (PasswordResource.update cAllOk passPlanNewName passStateA).2.filter
        (fun k => k.isDeleteResource || k.isCreateResource) =
      [Call.deleteResource passStateA.id.valueString,
       Call.createResource fid passPlanNewName.name.valueString
         passPlanNewName.username.valueString passPlanNewName.uri.valueString
         passPlanNewName.password.valueString
         passPlanNewName.description.valueString]) ∧
     (PasswordResource.update cAllOk passPlanNewName passStateA).2.all
       (fun k => !k.isPatchResource) = true) :=
  ⟨by decide,
   passwordUpdate_recreates_on_any_diff cAllOk passPlanNewName passStateA
     resourceA [folderA] [groupA] "res-new" rfl (by decide) rfl rfl
     (fun fid => rfl) rfl (fun r ops => rfl)⟩

/-- Claim C9: in the recreation path, when the delete of the old id succeeds
and the subsequent create fails, the update surfaces an error and stops:
the failing create is the last remote call, there is exactly one creation
attempt, exactly one delete (no rollback, no retry), and for secrets no
share call. -/
theorem update_recreate_create_failure_stops :
    (∀ (c : Client) (plan state : PasswordResourceModel) (cur : PBResource)
      (folders : List Folder) (e : GoError),
      c.getResource state.id.valueString = Except.ok cur →
      passwordNeedsRecreation plan state cur = true →
      c.deleteResource state.id.valueString = Except.ok () →
      c.getFolders = Except.ok folders →
      (∀ fid, c.createResource fid plan.name.valueString
        plan.username.valueString plan.uri.valueString
        plan.password.valueString plan.description.valueString =
        Except.error e) →
      (PasswordResource.update c plan state).1 =
        OpResult.err
          { path := none, summary := "Cannot recreate resource",
            detail := e.message } ∧
      ((PasswordResource.update c plan state).2.filter
        Call.isCreateResource).length = 1 ∧
      (PasswordResource.update c plan state).2.filter Call.isDeleteResource =
        [Call.deleteResource state.id.valueString] ∧
      (PasswordResource.update c plan state).2.filter Call.isShareResource =
        [] ∧
      (∃ fid, (PasswordResource.update c plan state).2.getLast? =
        some (Call.createResource fid plan.name.valueString
          plan.username.valueString plan.uri.valueString
          plan.password.valueString plan.description.valueString))) ∧
    (∀ (c : Client) (plan state : FolderResourceModel) (cur : Folder)
      (folders : List Folder) (e : GoError),
      c.getFolder state.id.valueString = Except.ok cur →
      folderNeedsRecreation plan state cur = true →
      c.deleteFolder state.id.valueString = Except.ok () →
      c.getFolders = Except.ok folders →
      (∀ f, c.createFolder f = Except.error e) →
      (FolderResource.update c plan state).1 =
        OpResult.err
          { path := none, summary := "Cannot recreate folder",
            detail := e.message } ∧
      ((FolderResource.update c plan state).2.filter
        Call.isCreateFolder).length = 1 ∧
      (FolderResource.update c plan state).2.filter Call.isDeleteFolder =
        [Call.deleteFolder state.id.valueString] ∧
      (∃ f, (FolderResource.update c plan state).2.getLast? =
        some (Call.createFolder f))) := by
  constructor
  · intro c plan state cur folders e hget hdiff hdel hf hcf
    unfold PasswordResource.update
    rw [hget]
    simp only [hdiff, if_true]
    rw [hdel]
    cases hb : (!plan.folderParent.isNull && !plan.folderParent.isUnknown) with
    | false =>
      simp only [hb, Bool.false_eq_true, if_false]
      unfold passwordRecreateStep
      rw [hcf ""]
      refine ⟨rfl, ?_, ?_, ?_, ⟨"", ?_⟩⟩ <;>
        simp [Call.isCreateResource, Call.isDeleteResource,
          Call.isShareResource]
    | true =>
      rw [hf]
      simp only [hb, if_true]
      unfold passwordRecreateStep
      rw [hcf (resolveFolderID folders plan.folderParent.valueString)]
      refine ⟨rfl, ?_, ?_, ?_,
        ⟨resolveFolderID folders plan.folderParent.valueString, ?_⟩⟩ <;>
        simp [Call.isCreateResource, Call.isDeleteResource,
          Call.isShareResource]
  · intro c plan state cur folders e hget hdiff hdel hf hcf
    unfold FolderResource.update
    rw [hget]
    simp only [hdiff, if_true]
    rw [hdel]
    cases hb : (!plan.folderParent.isNull && !plan.folderParent.isUnknown) with
    | false =>
      simp only [hb, Bool.false_eq_true, if_false]
      unfold folderRecreateStep
      simp only [hcf]
      refine ⟨trivial, ?_, ?_,
        ⟨{ id := "", name := plan.name.valueString, folderParentID := "",
           personal := false }, ?_⟩⟩ <;>
        simp [Call.isCreateFolder, Call.isDeleteFolder]
    | true =>
      rw [hf]
      simp only [hb, if_true]
      unfold folderRecreateStep
      simp only [hcf]
      refine ⟨trivial, ?_, ?_,
        ⟨{ id := "", name := plan.name.valueString,
           folderParentID :=
             resolveFolderID folders plan.folderParent.valueString,
           personal := false }, ?_⟩⟩ <;>
        simp [Call.isCreateFolder, Call.isDeleteFolder]

def folderPlanNewName : FolderResourceModel :=
  { folderStateA with name := .value "parentB" }

/-- Witness for C9: on a remote whose creation calls fail, a concrete
recreating update of each resource kind surfaces the recreate error after
exactly one delete and one create attempt. -/
theorem update_recreate_create_failure_witness :
    passwordNeedsRecreation passPlanNewName passStateA resourceA = true ∧
    (PasswordResource.update cCreateFails passPlanNewName passStateA).1 =
      OpResult.err
        { path := none, summary := "Cannot recreate resource",
          detail := "connection reset" } ∧
    folderNeedsRecreation folderPlanNewName folderStateA
      { id := "fid-1", name := "parentA", folderParentID := "",
        personal := false } = true ∧
    (FolderResource.update cCreateFails folderPlanNewName folderStateA).1 =
      OpResult.err
        { path := none, summary := "Cannot recreate folder",
          detail := "connection reset" } :=
  ⟨by decide,
   (update_recreate_create_failure_stops.1 cCreateFails passPlanNewName
     passStateA resourceA [folderA] transportErr rfl (by decide) rfl rfl
     (fun fid => rfl)).1,
   by decide,
   (update_recreate_create_failure_stops.2 cCreateFails folderPlanNewName
     folderStateA
     { id := "fid-1", name := "parentA", folderParentID := "",
       personal := false }
     [folderA] transportErr rfl (by decide) rfl rfl (fun f => rfl)).1⟩

/-- Claim C10: in the recreation path of update, a planned parent-folder
name matching no folder in the fresh listing does not fail the operation:
the new entity is created with an empty parent-folder id (at the root). -/
theorem update_recreate_unresolved_parent_goes_to_root :
    (∀ (c : Client) (plan state : FolderResourceModel) (cur created : Folder)
      (folders : List Folder),
      c.getFolder state.id.valueString = Except.ok cur →
      folderNeedsRecreation plan state cur = true →
      c.deleteFolder state.id.valueString = Except.ok () →
      (!plan.folderParent.isNull && !plan.folderParent.isUnknown) = true →
      c.getFolders = Except.ok folders →
      (∀ f ∈ folders, f.name ≠ plan.folderParent.valueString) →
      c.createFolder
        { id := "", name := plan.name.valueString, folderParentID := "",
          personal := false } = Except.ok created →
      (∃ st2, (FolderResource.update c plan state).1 = OpResult.ok st2 ∧
        st2.id = TFString.value created.id) ∧
      (FolderResource.update c plan state).2.filter Call.isCreateFolder =
        [Call.createFolder
          { id := "", name := plan.name.valueString, folderParentID := "",
            personal := false }]) ∧
    (∀ (c : Client) (plan state : PasswordResourceModel) (cur : PBResource)
      (folders : List Folder) (groups : List Group) (rid : String),
      c.getResource state.id.valueString = Except.ok cur →
      passwordNeedsRecreation plan state cur = true →
      c.deleteResource state.id.valueString = Except.ok () →
      (!plan.folderParent.isNull && !plan.folderParent.isUnknown) = true →
      c.getFolders = Except.ok folders →
      (∀ f ∈ folders, f.name ≠ plan.folderParent.valueString) →
      c.createResource "" plan.name.valueString plan.username.valueString
        plan.uri.valueString plan.password.valueString
        plan.description.valueString = Except.ok rid →
      c.getGroups = Except.ok groups →
      (∀ ops, c.shareResource rid ops = Except.ok ()) →
      (∃ st2, (PasswordResource.update c plan state).1 = OpResult.ok st2 ∧
        st2.id = TFString.value rid) ∧
      (PasswordResource.update c plan state).2.filter Call.isCreateResource =
        [Call.createResource "" plan.name.valueString
          plan.username.valueString plan.uri.valueString
          plan.password.valueString plan.description.valueString]) := by
  constructor
  · intro c plan state cur created folders hget hdiff hdel hb hf hnomatch hcr
    have hres := resolveFolderID_eq_empty_of_no_match folders
      plan.folderParent.valueString hnomatch
    unfold FolderResource.update
    rw [hget]
    simp only [hdiff, if_true]
    rw [hdel]
    rw [hf]
    simp only [hb, if_true, hres]
    unfold folderRecreateStep
    simp only [hcr]
    refine ⟨⟨_, rfl, rfl⟩, ?_⟩
    simp [Call.isCreateFolder]
  · intro c plan state cur folders groups rid hget hdiff hdel hb hf hnomatch
      hcr hgr hsh
    have hres := resolveFolderID_eq_empty_of_no_match folders
      plan.folderParent.valueString hnomatch
    unfold PasswordResource.update
    rw [hget]
    simp only [hdiff, if_true]
    rw [hdel]
    rw [hf]
    simp only [hb, if_true, hres]
    obtain ⟨h1, str, h2, h3⟩ := passwordRecreateStep_ok c plan state "" rid
      [Call.getResource state.id.valueString,
       Call.deleteResource state.id.valueString, Call.getFolders] groups
      hcr hgr hsh
    have hstr := fun k hk => List.all_eq_true.1 h3 k hk
    have hfil : str.filter Call.isCreateResource = [] := by
      rw [List.filter_eq_nil_iff]
      intro k hk
      have hx := hstr k hk
      simp at hx ⊢
      tauto
    refine ⟨⟨_, h1, rfl⟩, ?_⟩
    rw [h2, List.filter_append, List.filter_append, hfil]
    simp [Call.isCreateResource]

def folderPlanOrphan : FolderResourceModel :=
  { folderStateA with folderParent := .value "vanished" }

/-- Witness for C10: concrete recreating updates whose parent-folder name is
absent from the listing succeed with the new ids. -/
theorem update_recreate_unresolved_parent_witness :
    (∀ f ∈ [folderA], f.name ≠ folderPlanOrphan.folderParent.valueString) ∧
    (∃ st2, (FolderResource.update cAllOk folderPlanOrphan folderStateA).1 =
      OpResult.ok st2 ∧ st2.id = TFString.value "folder-new") ∧
    (∃ st2, (PasswordResource.update cAllOk
        { passStateA with folderParent := .value "vanished" } passStateA).1 =
      OpResult.ok st2 ∧ st2.id = TFString.value "res-new") :=
  ⟨by decide,
   ((update_recreate_unresolved_parent_goes_to_root.1 cAllOk folderPlanOrphan
     folderStateA
     { id := "fid-1", name := "parentA", folderParentID := "",
       personal := false }
     { id := "folder-new", name := "parentA", folderParentID := "",
       personal := false }
     [folderA] rfl (by decide) rfl (by decide) rfl (by decide) rfl)).1,
   ((update_recreate_unresolved_parent_goes_to_root.2 cAllOk
     { passStateA with folderParent := .value "vanished" } passStateA
     resourceA [folderA] [groupA] "res-new" rfl (by decide) rfl (by decide)
     rfl (by decide) rfl rfl (fun ops => rfl))).1⟩

end Passbolt
